import Mathlib

/-!
# Verification of the configuration-singleton module and the periodic scheduler

Shallow embedding of `src/config_tools.py` and `src/scheduler.py`.

A concrete configuration class is characterised by its `__init__` signature:
an ordered list of named parameters, each with an optional default value.
The concrete classes covered are the ones the module documents: their
`__init__` assigns each parameter to a same-named attribute, in declaration
order, so an instance is its class name, a Python object identity, and its
`__dict__` (an ordered field list).  The metaclass `Singleton` keeps a
per-class registry `_instances`; object identity is modelled by a numeric
tag allocated from a counter carried next to the registry.
-/

namespace ConfigTools

/-- Configuration values appearing in a YAML mapping / Python dict
(the claims only exercise strings and integers). -/
inductive Value where
  | str : String → Value
  | int : Int → Value
  deriving DecidableEq

/-- Python `repr` of a value: strings are quoted, integers are printed plainly. -/
def pyRepr : Value → String
  | Value.str s => "\x27" ++ s ++ "\x27"
  | Value.int n => toString n

/-- One parameter of a concrete class's `__init__`: its name, and its default
value when the declaration provides one. -/
structure Param where
  name : String
  default : Option Value
  deriving DecidableEq

/-- A Python dict handed to `load_from_dict` / produced by the YAML loader:
an association list of keys to values (a real dict has no duplicate keys;
lookups take the first occurrence). -/
abbrev Dict := List (String × Value)

/-- A live Python object of a configuration class (`ConfigSuperClass` or
`SubConfig` descendant): its class name, its object identity, and its
`__dict__` in attribute-insertion order. -/
structure Instance where
  cls : String
  id : Nat
  fields : List (String × Value)
  deriving DecidableEq

/-- First-match association-list lookup (dict access / `dict.get`). -/
def assocGet {α : Type} : List (String × α) → String → Option α
  | [], _ => Option.none
  | (k, v) :: rest, key => if k = key then some v else assocGet rest key

/-- Whether the signature declares a parameter named `k`. -/
def hasParam (sig : List Param) (k : String) : Bool :=
  sig.any fun p => p.name = k

/-- The `TypeError` CPython raises when binding `cls(**d)` against
`__init__`: either an unexpected keyword or a missing required argument. -/
inductive BindErr where
  | unexpected (k : String)
  | missing (k : String)
  deriving DecidableEq

/-- The parameter name a binding error is about. -/
def BindErr.param : BindErr → String
  | BindErr.unexpected k => k
  | BindErr.missing k => k

/-- The interpreter's message text attached to the binding `TypeError`
(this is what `{e}` interpolates in `_type_error_response`); the claims rely
only on it containing the offending parameter's name. -/
def bindErrText : BindErr → String
  | BindErr.unexpected k =>
      "__init__() got an unexpected keyword argument \x27" ++ k ++ "\x27"
  | BindErr.missing k =>
      "__init__() missing 1 required positional argument: \x27" ++ k ++ "\x27"

/-- First key of the dict that no declared parameter matches, if any
(CPython reports an unexpected keyword before a missing argument). -/
def findUnexpected (sig : List Param) : Dict → Option String
  | [] => Option.none
  | (k, _) :: rest => if hasParam sig k then findUnexpected sig rest else some k

/-- First declared parameter that has no default and is absent from the
dict, if any. -/
def findMissing : List Param → Dict → Option String
  | [], _ => Option.none
  | p :: rest, d =>
    if p.default.isNone && (assocGet d p.name).isNone then some p.name
    else findMissing rest d

/-- The value a parameter receives once binding has succeeded: the dict's
entry, or the declared default.  (The fallback constant is unreachable when
binding succeeded.) -/
def boundValue (d : Dict) (p : Param) : Value :=
  match assocGet d p.name with
  | some v => v
  | Option.none => p.default.getD (Value.int 0)

/-- CPython keyword binding of `cls(**d)` against the signature: rejects an
unexpected keyword first, then a missing required argument, otherwise yields
the parameter/value pairs in declaration order. -/
def bindKwargs (sig : List Param) (d : Dict) :
    Except BindErr (List (String × Value)) :=
  match findUnexpected sig d with
  | some k => Except.error (BindErr.unexpected k)
  | Option.none =>
    match findMissing sig d with
    | some k => Except.error (BindErr.missing k)
    | Option.none => Except.ok (sig.map fun p => (p.name, boundValue d p))

/-- The exceptions the module can raise: the binding `TypeError` (caught and
translated by the load/reload methods), `ConfigFileParamError`, the
`AssertionError` of the `assert isfile(...)` precondition, and an error from
the external YAML loader (propagated unmodified). -/
inductive PyError where
  | typeError (e : BindErr)
  | configFileParamError (msg : String)
  | assertionError (msg : String)
  | yamlError (msg : String)
  deriving DecidableEq

/-- The message `_type_error_response` builds from the binding error and the
data origin. -/
def terMsg (origin : String) (e : BindErr) : String :=
  "le paramètre " ++ bindErrText e ++
    " est manquant ou superflu dans la configuration fournie (" ++ origin ++ ")."

/-- `_type_error_response`: raises `ConfigFileParamError` with a message
naming the offending parameter and the data origin. -/
def typeErrorResponse (origin : String) (e : BindErr) : PyError :=
  PyError.configFileParamError (terMsg origin e)

/-- `Singleton._instances` together with the allocator for object-identity
tags: the process-wide state the metaclass mutates. -/
structure World where
  instances : List (String × Instance)
  nextId : Nat
  deriving DecidableEq

/-- `Singleton.__call__`: return the cached instance when the class already
has one (ignoring the arguments, and before any binding against `__init__`);
otherwise construct the instance — bind the keywords, run the `__init__`
body (attribute assignments in declaration order), allocate its identity —
and cache it. -/
def singletonCall (w : World) (cls : String) (sig : List Param) (d : Dict) :
    Except PyError (World × Instance) :=
  match assocGet w.instances cls with
  | some i => Except.ok (w, i)
  | Option.none =>
    match bindKwargs sig d with
    | Except.error e => Except.error (PyError.typeError e)
    | Except.ok bound =>
      let i : Instance := ⟨cls, w.nextId, bound⟩
      Except.ok (⟨(cls, i) :: w.instances, w.nextId + 1⟩, i)

/-- `Singleton.instance`: the cached instance, or `ConfigFileParamError`
when the class was never loaded. -/
def singletonInstance (w : World) (cls : String) : Except PyError Instance :=
  match assocGet w.instances cls with
  | some i => Except.ok i
  | Option.none =>
    Except.error (PyError.configFileParamError
      "L\x27instance a été appelée sans avoir chargé les données")

/-- `ConfigSuperClass.load_from_dict`: `cls(**_dict)`, translating a binding
`TypeError` into `ConfigFileParamError` with origin `"dict variable"`. -/
def load_from_dict (w : World) (cls : String) (sig : List Param) (d : Dict) :
    Except PyError (World × Instance) :=
  match singletonCall w cls sig d with
  | Except.ok r => Except.ok r
  | Except.error (PyError.typeError e) =>
      Except.error (typeErrorResponse "dict variable" e)
  | Except.error e => Except.error e

/-- `ConfigSuperClass.from_file`: asserts the path names an existing regular
file (the filesystem `fs` maps a path to its text when `isfile` holds),
deserialises it with the external YAML loader `parseYaml`, then constructs as
`cls(**content)`, translating a binding `TypeError` with the path as origin. -/
def from_file (parseYaml : String → Except PyError Dict)
    (fs : String → Option String) (w : World) (cls : String) (sig : List Param)
    (yaml_file : String) : Except PyError (World × Instance) :=
  match fs yaml_file with
  | Option.none =>
    Except.error (PyError.assertionError
      ("le path " ++ yaml_file ++ " spécifié ne renvoie pas vers un fichier"))
  | some content =>
    match parseYaml content with
    | Except.error e => Except.error e
    | Except.ok d =>
      match singletonCall w cls sig d with
      | Except.ok r => Except.ok r
      | Except.error (PyError.typeError e) =>
          Except.error (typeErrorResponse yaml_file e)
      | Except.error e => Except.error e

/-- `ConfigSuperClass.reload_from_dict`: `self.__init__(**_dict)` — rebinds
the keywords against the signature; on success the `__init__` body
re-assigns every attribute of the existing object (its identity untouched,
its `__dict__` keeping declaration order); a binding `TypeError` is raised
before any assignment runs, leaving the object as it was.  The registry is
never consulted or modified. -/
def reload_from_dict (sig : List Param) (self : Instance) (d : Dict) :
    Instance × Option PyError :=
  match bindKwargs sig d with
  | Except.ok bound => ({ self with fields := bound }, Option.none)
  | Except.error e => (self, some (typeErrorResponse "dict variable" e))

/-- `ConfigSuperClass.reload_from_file`: path assertion, YAML
deserialisation, then `self.__init__(**content)` as in `reload_from_dict`,
with the path as error origin. -/
def reload_from_file (parseYaml : String → Except PyError Dict)
    (fs : String → Option String) (sig : List Param) (self : Instance)
    (yaml_file : String) : Instance × Option PyError :=
  match fs yaml_file with
  | Option.none =>
    (self, some (PyError.assertionError
      ("le path " ++ yaml_file ++ " spécifié ne renvoie pas vers un fichier")))
  | some content =>
    match parseYaml content with
    | Except.error e => (self, some e)
    | Except.ok d =>
      match bindKwargs sig d with
      | Except.ok bound => ({ self with fields := bound }, Option.none)
      | Except.error e => (self, some (typeErrorResponse yaml_file e))

/-- `_ReprConfigurationMixin.__repr__` (shared by `ConfigSuperClass` and
`SubConfig`): `ClassName(key1=repr(v1), key2=repr(v2), ...)` over `__dict__`
in insertion order. -/
def reprMixin (i : Instance) : String :=
  i.cls ++ "(" ++
    String.intercalate ", " (i.fields.map fun kv => kv.1 ++ "=" ++ pyRepr kv.2)
    ++ ")"

/-- Every parameter without a default receives a value from the dict. -/
def requiredSupplied (sig : List Param) (d : Dict) : Prop :=
  ∀ p ∈ sig, p.default = Option.none → (assocGet d p.name).isSome = true

/-- Every key of the dict is a declared parameter. -/
def noUnexpected (sig : List Param) (d : Dict) : Prop :=
  ∀ kv ∈ d, hasParam sig kv.1 = true

/-- `needle` occurs verbatim inside `msg`. -/
def containsSub (needle msg : String) : Prop :=
  ∃ pre post, msg = pre ++ needle ++ post

instance (sig : List Param) (d : Dict) :
    Decidable (requiredSupplied sig d) :=
  List.decidableBAll _ sig

instance (sig : List Param) (d : Dict) :
    Decidable (noUnexpected sig d) :=
  List.decidableBAll _ d

/-- The signature of the specification's scenario class
`Config(host, port, timeout=30)`. -/
def configSig : List Param :=
  [⟨"host", Option.none⟩, ⟨"port", Option.none⟩,
   ⟨"timeout", some (Value.int 30)⟩]

/-- The signature of a two-field class `Config(host, port)` used for the
textual-representation scenario. -/
def hostPortSig : List Param :=
  [⟨"host", Option.none⟩, ⟨"port", Option.none⟩]

/-- A YAML loader stub that deserialises any text to the fixed mapping `d`. -/
def constParse (d : Dict) : String → Except PyError Dict :=
  fun _ => Except.ok d

/-- A filesystem on which every path is a regular file with text `content`. -/
def constFs (content : String) : String → Option String :=
  fun _ => some content

/-- A filesystem on which no path references an existing regular file. -/
def noFs : String → Option String :=
  fun _ => Option.none

/-- The `Config` instance built from the mapping `{host: "a", port: 1}`
under `configSig`, with identity tag 0. -/
def cfgAInst : Instance :=
  ⟨"Config", 0, [("host", Value.str "a"), ("port", Value.int 1),
    ("timeout", Value.int 30)]⟩

/-- The registry state after `cfgAInst` was loaded as the `Config`
singleton. -/
def loadedWorld : World :=
  ⟨[("Config", cfgAInst)], 1⟩

end ConfigTools

namespace Scheduler

/-- `timedelta.seconds` of an elapsed wall-clock duration measured in
microseconds: the whole-seconds component within the day (sub-second part
truncated, full days wrapped modulo 86400). -/
def tdSeconds (elapsedUs : Nat) : Nat :=
  elapsedUs / 1000000 % 86400

/-- One pass of the loop body of `schedule_every(minutes)`'s `inner` after
the wrapped call returned: `time_left = minutes * 60 - (now - start).seconds`,
then `wait_until = time_left if time_left > 0 else 0`, the amount handed to
`sleep`. -/
def waitUntil (minutes : Nat) (elapsedUs : Nat) : Int :=
  let time_left : Int := (minutes : Int) * 60 - (tdSeconds elapsedUs : Int)
  if time_left > 0 then time_left else 0

/-- Outcome of one invocation of the wrapped callable: it returns after some
measured wall-clock duration (in microseconds), or raises. -/
inductive Outcome where
  | ok (elapsedUs : Nat)
  | raises (exc : String)
  deriving DecidableEq

/-- Observable state of the loop after consuming a finite prefix of
invocation outcomes: still looping (having slept the recorded amounts, in
seconds, between invocations), or terminated by the propagated exception.
There is no constructor for a normal return — the loop never returns. -/
inductive RunState where
  | running (sleeps : List Int)
  | terminated (exc : String) (sleeps : List Int)
  deriving DecidableEq

/-- The `while True` loop of `inner`: invoke the callable, compute the sleep
from the measured duration, sleep, repeat; an exception from the callable is
not caught and ends the loop. -/
def scheduleRun (minutes : Nat) : List Outcome → RunState
  | [] => RunState.running []
  | Outcome.ok e :: rest =>
    match scheduleRun minutes rest with
    | RunState.running s => RunState.running (waitUntil minutes e :: s)
    | RunState.terminated x s => RunState.terminated x (waitUntil minutes e :: s)
  | Outcome.raises x :: _ => RunState.terminated x []

/-- Modelled from the spec: the sleep the specification text claims, in
microseconds — the period minus the previous invocation's exact wall-clock
duration, floored at zero. -/
def specSleepUs (minutes : Nat) (elapsedUs : Nat) : Int :=
  max 0 ((minutes : Int) * 60 * 1000000 - (elapsedUs : Int))

end Scheduler

namespace ConfigTools

theorem assocGet_eq_none {α : Type} (l : List (String × α)) (k : String) :
    assocGet l k = Option.none ↔ k ∉ l.map Prod.fst := by
  induction l with
  | nil => simp [assocGet]
  | cons kv rest ih =>
    cases kv with
    | mk k0 v =>
      by_cases h : k0 = k
      · subst h; simp [assocGet]
      · simp only [assocGet, if_neg h, List.map_cons, List.mem_cons, ih]
        constructor
        · intro hk hor
          rcases hor with h1 | h2
          · exact h h1.symm
          · exact hk h2
        · intro hk
          exact fun h2 => hk (Or.inr h2)

theorem assocGet_cons_self {α : Type} (l : List (String × α)) (k : String)
    (v : α) : assocGet ((k, v) :: l) k = some v := by
  simp [assocGet]

theorem singletonCall_inv (w w1 : World) (cls : String) (sig : List Param)
    (d : Dict) (i1 : Instance)
    (h : singletonCall w cls sig d = Except.ok (w1, i1)) :
    (assocGet w.instances cls = some i1 ∧ w1 = w) ∨
    (assocGet w.instances cls = Option.none ∧
      bindKwargs sig d = Except.ok i1.fields ∧
      i1 = ⟨cls, w.nextId, i1.fields⟩ ∧
      w1 = ⟨(cls, i1) :: w.instances, w.nextId + 1⟩) := by
  unfold singletonCall at h
  cases hg : assocGet w.instances cls with
  | some i =>
    rw [hg] at h
    simp only [Except.ok.injEq, Prod.mk.injEq] at h
    exact Or.inl ⟨congrArg some h.2, h.1.symm⟩
  | none =>
    rw [hg] at h
    cases hb : bindKwargs sig d with
    | error e => rw [hb] at h; exact absurd h (by simp)
    | ok bound =>
      rw [hb] at h
      simp only [Except.ok.injEq, Prod.mk.injEq] at h
      refine Or.inr ⟨rfl, ?_, ?_, ?_⟩
      · rw [← h.2]
      · rw [← h.2]
      · rw [← h.1, ← h.2]

theorem load_from_dict_eq_ok (w : World) (cls : String) (sig : List Param)
    (d : Dict) (r : World × Instance) :
    load_from_dict w cls sig d = Except.ok r ↔
      singletonCall w cls sig d = Except.ok r := by
  unfold load_from_dict
  cases h : singletonCall w cls sig d with
  | ok r0 => simp
  | error e => cases e <;> simp

theorem findUnexpected_eq_none (sig : List Param) (d : Dict) :
    findUnexpected sig d = Option.none ↔ noUnexpected sig d := by
  induction d with
  | nil => simp [findUnexpected, noUnexpected]
  | cons kv rest ih =>
    cases kv with
    | mk k v =>
      by_cases h : hasParam sig k
      · simp only [findUnexpected, if_pos h, ih, noUnexpected,
          List.forall_mem_cons]
        exact ⟨fun hr => ⟨h, hr⟩, fun hr => hr.2⟩
      · simp only [findUnexpected, if_neg h, noUnexpected,
          List.forall_mem_cons]
        constructor
        · intro hcontra; exact absurd hcontra (by simp)
        · intro hr; exact absurd hr.1 h

theorem findMissing_eq_none (sig : List Param) (d : Dict) :
    findMissing sig d = Option.none ↔ requiredSupplied sig d := by
  induction sig with
  | nil => simp [findMissing, requiredSupplied]
  | cons p rest ih =>
    by_cases h : p.default.isNone && (assocGet d p.name).isNone
    · simp only [findMissing, if_pos h, requiredSupplied,
        List.forall_mem_cons]
      constructor
      · intro hcontra; exact absurd hcontra (by simp)
      · intro hr
        rw [Bool.and_eq_true, Option.isNone_iff_eq_none] at h
        have := hr.1 h.1
        rw [Option.isNone_iff_eq_none] at h
        rw [h.2] at this
        exact absurd this (by simp)
    · simp only [findMissing, if_neg h, requiredSupplied,
        List.forall_mem_cons] at ih ⊢
      rw [Bool.and_eq_true, not_and_or] at h
      constructor
      · intro hr
        refine ⟨?_, ih.mp hr⟩
        intro hd
        rcases h with h1 | h1
        · rw [Option.isNone_iff_eq_none] at h1; exact absurd hd h1
        · cases hx : assocGet d p.name with
          | none => rw [hx] at h1; exact absurd rfl h1
          | some v => rfl
      · intro hr; exact ih.mpr hr.2

theorem bindKwargs_ok_iff (sig : List Param) (d : Dict) :
    (∃ bound, bindKwargs sig d = Except.ok bound) ↔
      requiredSupplied sig d ∧ noUnexpected sig d := by
  unfold bindKwargs
  cases hu : findUnexpected sig d with
  | some k =>
    constructor
    · intro hcontra; exact absurd hcontra (by simp)
    · intro hr
      have := (findUnexpected_eq_none sig d).mpr hr.2
      rw [hu] at this
      exact absurd this (by simp)
  | none =>
    cases hm : findMissing sig d with
    | some k =>
      constructor
      · intro hcontra; exact absurd hcontra (by simp)
      · intro hr
        have := (findMissing_eq_none sig d).mpr hr.1
        rw [hm] at this
        exact absurd this (by simp)
    | none =>
      constructor
      · intro _
        exact ⟨(findMissing_eq_none sig d).mp hm,
          (findUnexpected_eq_none sig d).mp hu⟩
      · intro _
        exact ⟨sig.map fun p => (p.name, boundValue d p), rfl⟩

theorem bindKwargs_ok_eq (sig : List Param) (d : Dict)
    (bound : List (String × Value))
    (h : bindKwargs sig d = Except.ok bound) :
    bound = sig.map fun p => (p.name, boundValue d p) := by
  unfold bindKwargs at h
  cases hu : findUnexpected sig d with
  | some k => rw [hu] at h; exact absurd h (by simp)
  | none =>
    rw [hu] at h
    cases hm : findMissing sig d with
    | some k => rw [hm] at h; exact absurd h (by simp)
    | none =>
      rw [hm] at h
      simp only [Except.ok.injEq] at h
      exact h.symm

theorem terMsg_carries (origin : String) (e : BindErr) :
    containsSub (BindErr.param e) (terMsg origin e) ∧
      containsSub origin (terMsg origin e) := by
  constructor
  · cases e with
    | unexpected k =>
      refine ⟨"le paramètre " ++
        "__init__() got an unexpected keyword argument \x27", "\x27" ++
        (" est manquant ou superflu dans la configuration fournie (" ++
          (origin ++ ").")), ?_⟩
      simp only [terMsg, bindErrText, BindErr.param, String.append_assoc]
    | missing k =>
      refine ⟨"le paramètre " ++
        "__init__() missing 1 required positional argument: \x27", "\x27" ++
        (" est manquant ou superflu dans la configuration fournie (" ++
          (origin ++ ").")), ?_⟩
      simp only [terMsg, bindErrText, BindErr.param, String.append_assoc]
  · refine ⟨"le paramètre " ++ (bindErrText e ++
      " est manquant ou superflu dans la configuration fournie ("), ").", ?_⟩
    simp only [terMsg, String.append_assoc]

end ConfigTools

namespace ConfigTools

theorem singletonCall_cached (w : World) (cls : String) (sig : List Param)
    (d : Dict) (i : Instance) (h : assocGet w.instances cls = some i) :
    singletonCall w cls sig d = Except.ok (w, i) := by
  unfold singletonCall
  rw [h]

end ConfigTools

open ConfigTools Scheduler

/-- C1: for every concrete configuration type using the `Singleton`
metaclass, a second `load_from_dict` call (`from_file` reduces to the same
`cls(**·)` path) with any different valid input returns the very instance the
first call returned — same identity, registry unchanged, the second call's
data ignored — and the registry keeps at most one entry per concrete type. -/
theorem singleton_second_load_identical
    (w w1 : World) (cls : String) (sig : List Param) (d1 d2 : Dict)
    (i1 : Instance)
    (h1 : load_from_dict w cls sig d1 = Except.ok (w1, i1))
    (hone : (w.instances.map Prod.fst).Nodup) :
    load_from_dict w1 cls sig d2 = Except.ok (w1, i1) ∧
    (w1.instances.map Prod.fst).Nodup := by
  rw [load_from_dict_eq_ok] at h1
  rcases singletonCall_inv w w1 cls sig d1 i1 h1 with
    ⟨hc, hw⟩ | ⟨hn, hb, hi, hw⟩
  · rw [hw]
    exact ⟨(load_from_dict_eq_ok w cls sig d2 (w, i1)).mpr
      (singletonCall_cached w cls sig d2 i1 hc), hone⟩
  · subst hw
    constructor
    · exact (load_from_dict_eq_ok _ cls sig d2 _).mpr
        (singletonCall_cached _ cls sig d2 i1 (assocGet_cons_self _ cls i1))
    · simp only [List.map_cons, List.nodup_cons]
      exact ⟨(assocGet_eq_none w.instances cls).mp hn, hone⟩

/-- C1 witness: the `Config` singleton loaded from `{host:"a", port:1}`;
a second load with `{host:"b", port:2}` returns the cached instance and
leaves the registry unchanged. -/
theorem singleton_second_load_identical_witness :
    load_from_dict loadedWorld "Config" configSig
      [("host", Value.str "b"), ("port", Value.int 2)] =
      Except.ok (loadedWorld, cfgAInst) ∧
    (loadedWorld.instances.map Prod.fst).Nodup :=
  singleton_second_load_identical ⟨[], 0⟩ loadedWorld "Config" configSig
    [("host", Value.str "a"), ("port", Value.int 1)]
    [("host", Value.str "b"), ("port", Value.int 2)] cfgAInst rfl (by decide)

/-- C4 counterexample: fetching the singleton of a never-loaded type via
`Singleton.instance` raises `ConfigFileParamError` — the code's
parameter-mismatch exception class — not a separate `InstanceNotLoadedError`
kind (no such class exists in the module). -/
theorem instance_unloaded_error_kind_cex :
    singletonInstance ⟨[], 0⟩ "Config" =
      Except.error (PyError.configFileParamError
        "L\x27instance a été appelée sans avoir chargé les données") :=
  rfl

/-- C4 amended: for every concrete configuration type with no prior
successful load, `Singleton.instance` fails with `ConfigFileParamError`
whose message says the instance was fetched before the data was loaded. -/
theorem instance_before_load_fails
    (w : World) (cls : String)
    (h : assocGet w.instances cls = Option.none) :
    singletonInstance w cls =
      Except.error (PyError.configFileParamError
        "L\x27instance a été appelée sans avoir chargé les données") := by
  unfold singletonInstance
  rw [h]

/-- C4 witness: fetching the never-loaded `Database` type fails with
`ConfigFileParamError`. -/
theorem instance_before_load_fails_witness :
    singletonInstance ⟨[], 0⟩ "Database" =
      Except.error (PyError.configFileParamError
        "L\x27instance a été appelée sans avoir chargé les données") :=
  instance_before_load_fails ⟨[], 0⟩ "Database" rfl

/-- C5: for every path that does not reference an existing regular file,
`from_file` and `reload_from_file` fail with the path-precondition assertion
(the spec's `InvalidPathError`) whatever the YAML parser would do — the
result is the same for every parser, so no parsing of file content is
attempted. -/
theorem from_file_invalid_path
    (fs : String → Option String) (yaml_file : String)
    (hfs : fs yaml_file = Option.none)
    (w : World) (cls : String) (sig : List Param) (self : Instance) :
    (∀ parseYaml, from_file parseYaml fs w cls sig yaml_file =
      Except.error (PyError.assertionError
        ("le path " ++ yaml_file ++
          " spécifié ne renvoie pas vers un fichier"))) ∧
    (∀ parseYaml, reload_from_file parseYaml fs sig self yaml_file =
      (self, some (PyError.assertionError
        ("le path " ++ yaml_file ++
          " spécifié ne renvoie pas vers un fichier")))) := by
  constructor
  · intro parseYaml
    unfold from_file
    rw [hfs]
  · intro parseYaml
    unfold reload_from_file
    rw [hfs]

/-- C5 witness: on a filesystem with no regular files, loading or reloading
`Config` from `missing.yml` raises the path assertion. -/
theorem from_file_invalid_path_witness :
    from_file (constParse []) noFs ⟨[], 0⟩ "Config" configSig "missing.yml" =
      Except.error (PyError.assertionError
        "le path missing.yml spécifié ne renvoie pas vers un fichier") ∧
    reload_from_file (constParse []) noFs configSig cfgAInst "missing.yml" =
      (cfgAInst, some (PyError.assertionError
        "le path missing.yml spécifié ne renvoie pas vers un fichier")) :=
  ⟨(from_file_invalid_path noFs "missing.yml" rfl ⟨[], 0⟩ "Config" configSig
      cfgAInst).1 (constParse []),
   (from_file_invalid_path noFs "missing.yml" rfl ⟨[], 0⟩ "Config" configSig
      cfgAInst).2 (constParse [])⟩

/-- C6: once a type has a cached singleton, `load_from_dict` with any
mapping — however invalid — returns the cached instance with the registry
untouched: `Singleton.__call__` short-circuits before any keyword binding
against `__init__` occurs, so no `ConfigFileParamError` can arise. -/
theorem loaded_load_skips_constructor
    (w : World) (cls : String) (i : Instance)
    (h : assocGet w.instances cls = some i) :
    ∀ sig d, load_from_dict w cls sig d = Except.ok (w, i) := by
  intro sig d
  exact (load_from_dict_eq_ok w cls sig d (w, i)).mpr
    (singletonCall_cached w cls sig d i h)

/-- C6 witness: with `Config` already loaded, a mapping consisting of one
unknown key (and missing both required fields) still returns the cached
instance without error. -/
theorem loaded_load_skips_constructor_witness :
    load_from_dict loadedWorld "Config" configSig [("junk", Value.int 1)] =
      Except.ok (loadedWorld, cfgAInst) :=
  loaded_load_skips_constructor loadedWorld "Config" cfgAInst rfl
    configSig [("junk", Value.int 1)]

/-- C7: loading the scenario type `Config(host, port, timeout=30)` from the
mapping `{host: "x", port: 8080}` succeeds, and the resulting instance's
`timeout` field equals 30 (the declared default). -/
theorem config_default_timeout_scenario :
    load_from_dict ⟨[], 0⟩ "Config" configSig
      [("host", Value.str "x"), ("port", Value.int 8080)] =
      Except.ok
        (⟨[("Config", ⟨"Config", 0, [("host", Value.str "x"),
            ("port", Value.int 8080), ("timeout", Value.int 30)]⟩)], 1⟩,
         ⟨"Config", 0, [("host", Value.str "x"), ("port", Value.int 8080),
            ("timeout", Value.int 30)]⟩) ∧
    assocGet [("host", Value.str "x"), ("port", Value.int 8080),
      ("timeout", Value.int 30)] "timeout" = some (Value.int 30) :=
  ⟨rfl, rfl⟩

theorem singletonCall_fresh_ok (w : World) (cls : String) (sig : List Param)
    (d : Dict) (bound : List (String × Value))
    (hfresh : assocGet w.instances cls = Option.none)
    (hb : bindKwargs sig d = Except.ok bound) :
    singletonCall w cls sig d =
      Except.ok (⟨(cls, ⟨cls, w.nextId, bound⟩) :: w.instances,
        w.nextId + 1⟩, ⟨cls, w.nextId, bound⟩) := by
  unfold singletonCall
  rw [hfresh, hb]

theorem singletonCall_fresh_err (w : World) (cls : String) (sig : List Param)
    (d : Dict) (e : BindErr)
    (hfresh : assocGet w.instances cls = Option.none)
    (hb : bindKwargs sig d = Except.error e) :
    singletonCall w cls sig d = Except.error (PyError.typeError e) := by
  unfold singletonCall
  rw [hfresh, hb]

theorem load_from_dict_typeErr (w : World) (cls : String) (sig : List Param)
    (d : Dict) (e : BindErr)
    (h : singletonCall w cls sig d = Except.error (PyError.typeError e)) :
    load_from_dict w cls sig d =
      Except.error (typeErrorResponse "dict variable" e) := by
  unfold load_from_dict
  rw [h]

theorem from_file_parsed_ok (parseYaml : String → Except PyError Dict)
    (fs : String → Option String) (w : World) (cls : String)
    (sig : List Param) (yaml_file content : String) (d : Dict)
    (r : World × Instance) (hfs : fs yaml_file = some content)
    (hp : parseYaml content = Except.ok d)
    (hcall : singletonCall w cls sig d = Except.ok r) :
    from_file parseYaml fs w cls sig yaml_file = Except.ok r := by
  unfold from_file
  rw [hfs]
  simp only [hp, hcall]

theorem from_file_parsed_typeErr (parseYaml : String → Except PyError Dict)
    (fs : String → Option String) (w : World) (cls : String)
    (sig : List Param) (yaml_file content : String) (d : Dict) (e : BindErr)
    (hfs : fs yaml_file = some content)
    (hp : parseYaml content = Except.ok d)
    (hcall : singletonCall w cls sig d = Except.error (PyError.typeError e)) :
    from_file parseYaml fs w cls sig yaml_file =
      Except.error (typeErrorResponse yaml_file e) := by
  unfold from_file
  rw [hfs]
  simp only [hp, hcall]

/-- C2 counterexample: once `Config` is loaded, `load_from_dict` with the
mapping `{junk... bogus: 1}` — which has an unknown key AND misses both
required fields — succeeds and returns the cached instance instead of
failing with `ConfigFileParamError`, so the claimed equivalence does not
hold for every call. -/
theorem loaded_state_skips_validation_cex :
    findUnexpected configSig [("bogus", Value.int 1)] = some "bogus" ∧
    findMissing configSig [("bogus", Value.int 1)] = some "host" ∧
    load_from_dict loadedWorld "Config" configSig [("bogus", Value.int 1)] =
      Except.ok (loadedWorld, cfgAInst) :=
  ⟨rfl, rfl, rfl⟩

/-- C2 amended: for a concrete configuration type with no cached instance
yet (first load), `load_from_dict` — and `from_file` once the file's content
deserialises to the mapping — succeeds and caches the new instance exactly
when every required constructor field is supplied and no unexpected keys
remain (defaulted fields may be omitted); otherwise it fails with
`ConfigFileParamError` whose message carries the offending parameter name
and the data origin (`"dict variable"` is the code's generic label for
direct mapping loads, the file path for file-sourced loads). -/
theorem first_load_validation
    (w : World) (cls : String) (sig : List Param) (d : Dict)
    (hfresh : assocGet w.instances cls = Option.none) :
    ((∃ bound, bindKwargs sig d = Except.ok bound) ↔
      requiredSupplied sig d ∧ noUnexpected sig d) ∧
    (∀ bound, bindKwargs sig d = Except.ok bound →
      load_from_dict w cls sig d =
        Except.ok (⟨(cls, ⟨cls, w.nextId, bound⟩) :: w.instances,
          w.nextId + 1⟩, ⟨cls, w.nextId, bound⟩) ∧
      assocGet ((cls, (⟨cls, w.nextId, bound⟩ : Instance)) :: w.instances) cls
        = some ⟨cls, w.nextId, bound⟩) ∧
    (∀ e, bindKwargs sig d = Except.error e →
      load_from_dict w cls sig d =
        Except.error (PyError.configFileParamError
          (terMsg "dict variable" e)) ∧
      containsSub (BindErr.param e) (terMsg "dict variable" e) ∧
      containsSub "dict variable" (terMsg "dict variable" e)) ∧
    (∀ parseYaml fs yaml_file content, fs yaml_file = some content →
      parseYaml content = Except.ok d →
      (∀ bound, bindKwargs sig d = Except.ok bound →
        from_file parseYaml fs w cls sig yaml_file =
          Except.ok (⟨(cls, ⟨cls, w.nextId, bound⟩) :: w.instances,
            w.nextId + 1⟩, ⟨cls, w.nextId, bound⟩)) ∧
      (∀ e, bindKwargs sig d = Except.error e →
        from_file parseYaml fs w cls sig yaml_file =
          Except.error (PyError.configFileParamError (terMsg yaml_file e)) ∧
        containsSub (BindErr.param e) (terMsg yaml_file e) ∧
        containsSub yaml_file (terMsg yaml_file e))) := by
  refine ⟨bindKwargs_ok_iff sig d, ?_, ?_, ?_⟩
  · intro bound hb
    exact ⟨(load_from_dict_eq_ok w cls sig d _).mpr
        (singletonCall_fresh_ok w cls sig d bound hfresh hb),
      assocGet_cons_self w.instances cls _⟩
  · intro e hb
    exact ⟨load_from_dict_typeErr w cls sig d e
        (singletonCall_fresh_err w cls sig d e hfresh hb),
      (terMsg_carries "dict variable" e).1, (terMsg_carries "dict variable" e).2⟩
  · intro parseYaml fs yaml_file content hfs hp
    constructor
    · intro bound hb
      exact from_file_parsed_ok parseYaml fs w cls sig yaml_file content d _
        hfs hp (singletonCall_fresh_ok w cls sig d bound hfresh hb)
    · intro e hb
      exact ⟨from_file_parsed_typeErr parseYaml fs w cls sig yaml_file content
          d e hfs hp (singletonCall_fresh_err w cls sig d e hfresh hb),
        (terMsg_carries yaml_file e).1, (terMsg_carries yaml_file e).2⟩

/-- C2 witness: on a fresh registry, loading `Config(host, port, timeout=30)`
from `{host:"x", port:8080}` succeeds and caches; loading from `{host:"x"}`
fails with `ConfigFileParamError` about `port`; through a file whose content
deserialises to `{host:"x", port:8080}` the load also succeeds. -/
theorem first_load_validation_witness :
    load_from_dict ⟨[], 0⟩ "Config" configSig
      [("host", Value.str "x"), ("port", Value.int 8080)] =
      Except.ok
        (⟨[("Config", ⟨"Config", 0, [("host", Value.str "x"),
            ("port", Value.int 8080), ("timeout", Value.int 30)]⟩)], 1⟩,
         ⟨"Config", 0, [("host", Value.str "x"), ("port", Value.int 8080),
            ("timeout", Value.int 30)]⟩) ∧
    load_from_dict ⟨[], 0⟩ "Config" configSig [("host", Value.str "x")] =
      Except.error (PyError.configFileParamError
        (terMsg "dict variable" (BindErr.missing "port"))) ∧
    from_file (constParse [("host", Value.str "x"), ("port", Value.int 8080)])
      (constFs "conf") ⟨[], 0⟩ "Config" configSig "app.yml" =
      Except.ok
        (⟨[("Config", ⟨"Config", 0, [("host", Value.str "x"),
            ("port", Value.int 8080), ("timeout", Value.int 30)]⟩)], 1⟩,
         ⟨"Config", 0, [("host", Value.str "x"), ("port", Value.int 8080),
            ("timeout", Value.int 30)]⟩) :=
  ⟨((first_load_validation ⟨[], 0⟩ "Config" configSig
      [("host", Value.str "x"), ("port", Value.int 8080)] rfl).2.1
      [("host", Value.str "x"), ("port", Value.int 8080),
        ("timeout", Value.int 30)] rfl).1,
   ((first_load_validation ⟨[], 0⟩ "Config" configSig
      [("host", Value.str "x")] rfl).2.2.1 (BindErr.missing "port") rfl).1,
   ((first_load_validation ⟨[], 0⟩ "Config" configSig
      [("host", Value.str "x"), ("port", Value.int 8080)] rfl).2.2.2
      (constParse [("host", Value.str "x"), ("port", Value.int 8080)])
      (constFs "conf") "app.yml" "conf" rfl rfl).1
      [("host", Value.str "x"), ("port", Value.int 8080),
        ("timeout", Value.int 30)] rfl⟩

/-- C3: reloading an instance from a valid mapping (`reload_from_dict`, or
`reload_from_file` once the file deserialises to that mapping) keeps the
object's identity — same class, same identity tag, and the registry is never
touched, so no new instance is created — while its fields afterwards equal
the values bound from the new mapping. -/
theorem reload_preserves_identity
    (sig : List Param) (self : Instance) (d : Dict)
    (bound : List (String × Value))
    (hbind : bindKwargs sig d = Except.ok bound) :
    reload_from_dict sig self d =
      ({ self with fields := bound }, Option.none) ∧
    (reload_from_dict sig self d).1.id = self.id ∧
    (reload_from_dict sig self d).1.cls = self.cls ∧
    (reload_from_dict sig self d).1.fields = bound ∧
    (∀ parseYaml fs yaml_file content, fs yaml_file = some content →
      parseYaml content = Except.ok d →
      reload_from_file parseYaml fs sig self yaml_file =
        ({ self with fields := bound }, Option.none)) := by
  have h : reload_from_dict sig self d =
      ({ self with fields := bound }, Option.none) := by
    unfold reload_from_dict
    rw [hbind]
  refine ⟨h, ?_, ?_, ?_, ?_⟩
  · rw [h]
  · rw [h]
  · rw [h]
  · intro parseYaml fs yaml_file content hfs hp
    unfold reload_from_file
    rw [hfs]
    simp only [hp, hbind]

/-- C3 witness: reloading the loaded `Config` instance (identity tag 0) from
`{host:"b", port:2}` returns the same object with the new field values and
no error. -/
theorem reload_preserves_identity_witness :
    reload_from_dict configSig cfgAInst
      [("host", Value.str "b"), ("port", Value.int 2)] =
      (⟨"Config", 0, [("host", Value.str "b"), ("port", Value.int 2),
        ("timeout", Value.int 30)]⟩, Option.none) ∧
    (reload_from_dict configSig cfgAInst
      [("host", Value.str "b"), ("port", Value.int 2)]).1.id = cfgAInst.id :=
  ⟨(reload_preserves_identity configSig cfgAInst
      [("host", Value.str "b"), ("port", Value.int 2)]
      [("host", Value.str "b"), ("port", Value.int 2),
        ("timeout", Value.int 30)] rfl).1,
   (reload_preserves_identity configSig cfgAInst
      [("host", Value.str "b"), ("port", Value.int 2)]
      [("host", Value.str "b"), ("port", Value.int 2),
        ("timeout", Value.int 30)] rfl).2.1⟩

/-- C8: an instance freshly constructed by a load renders through the shared
`__repr__` mixin as `TypeName(field1=value1, field2=value2, ...)` with the
fields in declared-parameter order and values in Python `repr` form. -/
theorem repr_renders_declared_order
    (w w1 : World) (cls : String) (sig : List Param) (d : Dict)
    (i : Instance)
    (hfresh : assocGet w.instances cls = Option.none)
    (h : load_from_dict w cls sig d = Except.ok (w1, i)) :
    reprMixin i = cls ++ "(" ++
      String.intercalate ", "
        (sig.map fun p => p.name ++ "=" ++ pyRepr (boundValue d p)) ++ ")" := by
  rw [load_from_dict_eq_ok] at h
  rcases singletonCall_inv w w1 cls sig d i h with ⟨hc, _⟩ | ⟨_, hb, hi, _⟩
  · rw [hfresh] at hc
    exact absurd hc (by simp)
  · have hfields : i.fields = sig.map fun p => (p.name, boundValue d p) :=
      bindKwargs_ok_eq sig d i.fields hb
    have hcls : i.cls = cls := by rw [hi]
    unfold reprMixin
    rw [hcls, hfields, List.map_map]
    rfl

/-- C8 witness: the two-field instance with `host="x"`, `port=8080` renders
as `Config(host=\x27x\x27, port=8080)`. -/
theorem repr_renders_declared_order_witness :
    reprMixin ⟨"Config", 0,
      [("host", Value.str "x"), ("port", Value.int 8080)]⟩ =
      "Config(host=\x27x\x27, port=8080)" :=
  repr_renders_declared_order ⟨[], 0⟩
    ⟨[("Config", ⟨"Config", 0,
      [("host", Value.str "x"), ("port", Value.int 8080)]⟩)], 1⟩
    "Config" hostPortSig [("host", Value.str "x"), ("port", Value.int 8080)]
    ⟨"Config", 0, [("host", Value.str "x"), ("port", Value.int 8080)]⟩
    rfl rfl

/-- C9 counterexample: with a one-minute period and an invocation that took
half a second, the loop sleeps 60 whole seconds (the `.seconds` component of
the measured timedelta is 0), not the 59.5 seconds (59 500 000 µs) the claim's
exact subtraction demands. -/
theorem schedule_sleep_truncation_cex :
    scheduleRun 1 [Outcome.ok 500000] = RunState.running [60] ∧
    specSleepUs 1 500000 = 59500000 ∧
    (60 : Int) * 1000000 ≠ 59500000 :=
  ⟨rfl, by decide, by decide⟩

/-- C9 amended: the wrapped callable is re-invoked forever — after any
number of completed invocations the loop is still running and never returns
normally — sleeping between consecutive invocations the period (n·60 s)
minus the whole-seconds component of the previous invocation's measured
duration (`timedelta.seconds`: sub-second remainder discarded, full days
wrapped mod 86400), floored at zero so the sleep is never negative; a
failure of the callable is not caught and terminates the loop at once. -/
theorem schedule_every_loop_behavior (minutes : Nat) (durs : List Nat)
    (x : String) (rest : List Outcome) :
    scheduleRun minutes (durs.map Outcome.ok) =
      RunState.running (durs.map (waitUntil minutes)) ∧
    scheduleRun minutes (durs.map Outcome.ok ++ Outcome.raises x :: rest) =
      RunState.terminated x (durs.map (waitUntil minutes)) ∧
    (∀ e, waitUntil minutes e =
      max 0 ((minutes : Int) * 60 - (tdSeconds e : Int))) ∧
    (∀ e, 0 ≤ waitUntil minutes e) := by
  refine ⟨?_, ?_, ?_, ?_⟩
  · induction durs with
    | nil => rfl
    | cons a tail ih =>
      simp only [List.map_cons, scheduleRun, ih]
  · induction durs with
    | nil => rfl
    | cons a tail ih =>
      simp only [List.map_cons, List.cons_append, scheduleRun, List.append_eq,
        ih]
  · intro e
    show (if ((minutes : Int) * 60 - (tdSeconds e : Int)) > 0
      then ((minutes : Int) * 60 - (tdSeconds e : Int)) else 0) =
      max 0 ((minutes : Int) * 60 - (tdSeconds e : Int))
    rcases le_or_lt ((minutes : Int) * 60 - (tdSeconds e : Int)) 0 with hle | hlt
    · rw [if_neg (not_lt.mpr hle), max_eq_left hle]
    · rw [if_pos hlt, max_eq_right hlt.le]
  · intro e
    show 0 ≤ (if ((minutes : Int) * 60 - (tdSeconds e : Int)) > 0
      then ((minutes : Int) * 60 - (tdSeconds e : Int)) else 0)
    split
    · omega
    · exact le_refl 0

/-- C10: reloading from a mapping whose keys do not bind against the
signature — a required field missing or an unknown key present — raises
`ConfigFileParamError` naming the offending parameter, and leaves the
instance exactly as it was: binding fails before the constructor body runs,
so the reload is atomic on validation failure. -/
theorem reload_invalid_mapping_atomic
    (sig : List Param) (self : Instance) (d : Dict)
    (hfail : ¬ (requiredSupplied sig d ∧ noUnexpected sig d)) :
    (reload_from_dict sig self d).1 = self ∧
    ∃ e, reload_from_dict sig self d =
      (self, some (PyError.configFileParamError (terMsg "dict variable" e))) ∧
      containsSub (BindErr.param e) (terMsg "dict variable" e) := by
  cases hb : bindKwargs sig d with
  | ok bound =>
    exact absurd ((bindKwargs_ok_iff sig d).mp ⟨bound, hb⟩) hfail
  | error e =>
    have h : reload_from_dict sig self d =
        (self, some (PyError.configFileParamError (terMsg "dict variable" e))) := by
      unfold reload_from_dict
      rw [hb]
      exact rfl
    exact ⟨by rw [h], e, h, (terMsg_carries "dict variable" e).1⟩

/-- C10 witness: reloading the loaded `Config` instance from `{junk: 1}` — an
unknown key, both required fields missing — leaves the instance unchanged. -/
theorem reload_invalid_mapping_atomic_witness :
    ¬ (requiredSupplied configSig [("junk", Value.int 1)] ∧
        noUnexpected configSig [("junk", Value.int 1)]) ∧
    (reload_from_dict configSig cfgAInst [("junk", Value.int 1)]).1 =
      cfgAInst :=
  ⟨by decide, (reload_invalid_mapping_atomic configSig cfgAInst
      [("junk", Value.int 1)] (by decide)).1⟩
